import Mathlib

/-!
Verification of the rain-viewer client library (src/src/lib.rs, src/src/error.rs).

The library validates tile-request parameters, builds tile URLs, and projects
the service's manifest JSON into a flattened structure.  Machine integers
(`u32`, `u64`) are modelled as `Nat` with explicit bounds where overflow
matters; a Rust panic (overflow of `2u32.pow(zoom)` with overflow checks on)
is modelled as `Option.none`; `Result` is modelled as `Except`.
-/

namespace RainViewer

/-- The nine color schemes (`ColorKind` in lib.rs, lines 54-64). -/
inductive ColorKind where
  | BlackAndWhite
  | Original
  | UniversalBlue
  | Titan
  | TheWeatherChannel
  | Meteored
  | NexradLevelIII
  | RainbowSelexIS
  | DarkSky
deriving DecidableEq, Fintype, Repr

/-- The integer code of a color scheme (`impl From<ColorKind> for u32`,
lib.rs lines 66-81). -/
def colorCode : ColorKind → Nat
  | ColorKind.BlackAndWhite => 0
  | ColorKind.Original => 1
  | ColorKind.UniversalBlue => 2
  | ColorKind.Titan => 3
  | ColorKind.TheWeatherChannel => 4
  | ColorKind.Meteored => 5
  | ColorKind.NexradLevelIII => 6
  | ColorKind.RainbowSelexIS => 7
  | ColorKind.DarkSky => 8

/-- Structure `TileArguments` (lib.rs lines 84-92); the `u32` fields become `Nat`. -/
structure TileArguments where
  size : Nat
  x : Nat
  y : Nat
  zoom : Nat
  color : ColorKind
  smooth : Bool
  snow : Bool
deriving DecidableEq, Repr

/-- Enum `RequestArgumentsInner` (lib.rs lines 95-97): a single-variant tagged
union holding the tile arguments. -/
inductive RequestArgumentsInner where
  | Tile : TileArguments → RequestArgumentsInner
deriving DecidableEq, Repr

/-- Structure `RequestArguments` (lib.rs lines 101-103). -/
structure RequestArguments where
  inner : RequestArgumentsInner
deriving DecidableEq, Repr

/-- The tile arguments held by a `RequestArguments` (the only variant). -/
def RequestArguments.tile : RequestArguments → TileArguments
  | ⟨RequestArgumentsInner.Tile t⟩ => t

/-- Enum `ParameterError` (error.rs lines 20-32): each variant carries the
offending value and a message string. -/
inductive ParameterError where
  | InvalidSize : Nat → String → ParameterError
  | InvalidZoom : Nat → String → ParameterError
  | XOutOfRange : Nat → String → ParameterError
  | YOutOfRange : Nat → String → ParameterError
deriving DecidableEq, Repr

/-- Model of `2u32.pow(zoom)` (lib.rs line 110): with overflow checks the power
panics when the mathematical result does not fit in a `u32`; the panic is
`none`. -/
def pow2u32 (zoom : Nat) : Option Nat :=
  if 2 ^ zoom < 2 ^ 32 then some (2 ^ zoom) else none

/-- Model of `RequestArguments::new_tile` (lib.rs lines 109-142).  `none` models the
panic of `2u32.pow(zoom)`; when the power succeeds, `max_coord ≥ 1` so the
`max_coord - 1` in the messages never underflows and Nat subtraction is
exact. -/
def new_tile (x y zoom : Nat) : Option (Except ParameterError RequestArguments) :=
  match pow2u32 zoom with
  | none => none
  | some max_coord =>
    if x ≥ max_coord then
      some (Except.error (ParameterError.XOutOfRange x
        ("With a zoom of " ++ toString zoom ++ ", the max value for x is "
          ++ toString (max_coord - 1))))
    else if y ≥ max_coord then
      some (Except.error (ParameterError.YOutOfRange y
        ("With a zoom of " ++ toString zoom ++ ", the max value for y is "
          ++ toString (max_coord - 1))))
    else
      some (Except.ok
        { inner := RequestArgumentsInner.Tile
            { size := 256, x := x, y := y, zoom := zoom,
              color := ColorKind.UniversalBlue, smooth := true, snow := true } })

/-- Model of `RequestArguments::set_size` (lib.rs lines 147-161), in state-passing
form: the pair is the receiver after the call and the error, if any.  On an
invalid size the receiver is returned unchanged, as the Rust `&mut self`
method leaves it. -/
def set_size (self : RequestArguments) (size : Nat) :
    RequestArguments × Option ParameterError :=
  if size = 256 ∨ size = 512 then
    match self.inner with
    | RequestArgumentsInner.Tile tile =>
      ({ inner := RequestArgumentsInner.Tile { tile with size := size } }, none)
  else
    (self, some (ParameterError.InvalidSize size
      "Image size must be either 256 or 512"))

/-- Model of `RequestArguments::set_smooth` (lib.rs lines 164-171), state-passing. -/
def set_smooth (self : RequestArguments) (smooth : Bool) : RequestArguments :=
  match self.inner with
  | RequestArgumentsInner.Tile tile =>
    { inner := RequestArgumentsInner.Tile { tile with smooth := smooth } }

/-- Model of `RequestArguments::set_snow` (lib.rs lines 174-181), state-passing. -/
def set_snow (self : RequestArguments) (snow : Bool) : RequestArguments :=
  match self.inner with
  | RequestArgumentsInner.Tile tile =>
    { inner := RequestArgumentsInner.Tile { tile with snow := snow } }

/-- Model of `RequestArguments::set_color` (lib.rs lines 184-191), state-passing. -/
def set_color (self : RequestArguments) (color : ColorKind) : RequestArguments :=
  match self.inner with
  | RequestArgumentsInner.Tile tile =>
    { inner := RequestArgumentsInner.Tile { tile with color := color } }

/-- Model of `chrono::NaiveDateTime`: seconds since the Unix epoch. -/
abbrev NaiveDateTime := Int

/-- The conversion `chrono::Utc.timestamp(raw.time as i64, 0).naive_utc()`
applied in `From<RawFrame> for Frame` (lib.rs line 325): the `u64` value is
cast to `i64` (wrapping), then taken as whole seconds. -/
def timestampFromUnix (t : Nat) : NaiveDateTime :=
  if t < 2 ^ 63 then (t : Int) else (t : Int) - 2 ^ 64

/-- Structure `Frame` (lib.rs lines 261-267). -/
structure Frame where
  time : NaiveDateTime
  path : String
deriving DecidableEq, Repr

/-- Structure `AvailableData` (lib.rs lines 271-276). -/
structure AvailableData where
  host : String
  past_radar : List Frame
  nowcast_radar : List Frame
  infrared_satellite : List Frame
deriving DecidableEq, Repr

/-- Structure `RawFrame` (lib.rs lines 312-318); `time` is a `u64`. -/
structure RawFrame where
  time : Nat
  path : String
deriving DecidableEq, Repr

/-- Structure `Radar` (lib.rs lines 301-304). -/
structure Radar where
  past : List RawFrame
  nowcast : List RawFrame
deriving DecidableEq, Repr

/-- Structure `Satellite` (lib.rs lines 307-309). -/
structure Satellite where
  infrared : List RawFrame
deriving DecidableEq, Repr

/-- Structure `RawAvailableData` (lib.rs lines 284-298). -/
structure RawAvailableData where
  version : String
  generated : Nat
  host : String
  radar : Radar
  satellite : Satellite
deriving DecidableEq, Repr

/-- Conversion `impl From<RawFrame> for Frame` (lib.rs lines 320-329). -/
def frameOfRaw (raw : RawFrame) : Frame :=
  { time := timestampFromUnix raw.time, path := raw.path }

/-- The pure projection performed by `WeatherRequester::available`
(lib.rs lines 215-225) once the manifest JSON has parsed into a
`RawAvailableData`: `.into_iter().map(|r| r.into()).collect()` is
`List.map frameOfRaw`. -/
def availableOfRaw (raw : RawAvailableData) : AvailableData :=
  { host := raw.host
  , past_radar := raw.radar.past.map frameOfRaw
  , nowcast_radar := raw.radar.nowcast.map frameOfRaw
  , infrared_satellite := raw.satellite.infrared.map frameOfRaw }

/-- The `Error` enum (error.rs lines 3-15): the wrapped `reqwest` and
`serde_json` errors are kept as their message strings, and a
`reqwest::StatusCode` is its numeric code. -/
inductive Error where
  | Reqwest : String → Error
  | Json : String → Error
  | Http : Nat → Error
  | Parameter : ParameterError → Error
deriving DecidableEq, Repr

/-- An HTTP response as `get_tile` consumes it: a status code and the body
bytes (byte values as `Nat`). -/
structure HttpResponse where
  status : Nat
  body : List Nat
deriving DecidableEq, Repr

/-- The URL built by `WeatherRequester::get_tile` (lib.rs lines 243-248):
`options` is `format!("{}_{}", smooth as u8, snow as u8)`, `color_val` the
color's integer code, and the URL is the eight segments of
`format!("{}/{}/{}/{}/{}/{}/{}/{}.png", host, path, size, zoom, x, y,
color_val, options)`. -/
def tile_url (host path : String) (args : TileArguments) : String :=
  let options := toString (if args.smooth then (1 : Nat) else 0) ++ "_"
    ++ toString (if args.snow then (1 : Nat) else 0)
  let color_val := colorCode args.color
  host ++ "/" ++ path ++ "/" ++ toString args.size ++ "/" ++ toString args.zoom
    ++ "/" ++ toString args.x ++ "/" ++ toString args.y ++ "/"
    ++ toString color_val ++ "/" ++ options ++ ".png"

/-- Model of `WeatherRequester::get_tile` (lib.rs lines 235-256), with the network
abstracted as `send : url → transport error or response`: a transport
failure propagates through `?` as `Error.Reqwest`; a 200 response yields its
body bytes verbatim, any other status is `Error.Http` with that status. -/
def get_tile (send : String → Except String HttpResponse)
    (maps : AvailableData) (frame : Frame) (args : RequestArguments) :
    Except Error (List Nat) :=
  match args.inner with
  | RequestArgumentsInner.Tile a =>
    let url := tile_url maps.host frame.path a
    match send url with
    | Except.error e => Except.error (Error.Reqwest e)
    | Except.ok res =>
      if res.status = 200 then Except.ok res.body
      else Except.error (Error.Http res.status)

/-- The URL exactly as the spec words it: serialize `smooth` and `snow` as
0/1 joined by an underscore into an options token, and build
host/path/size/zoom/x/y/colorCode/optionsToken.png. -/
def spec_tile_url (host path : String) (size zoom x y : Nat)
    (color : ColorKind) (smooth snow : Bool) : String :=
  let optionsToken := (if smooth then "1" else "0") ++ "_"
    ++ (if snow then "1" else "0")
  host ++ "/" ++ path ++ "/" ++ toString size ++ "/" ++ toString zoom ++ "/"
    ++ toString x ++ "/" ++ toString y ++ "/" ++ toString (colorCode color)
    ++ "/" ++ optionsToken ++ ".png"

/-- A sample valid arguments value, used in concrete witnesses. -/
def sampleTile : TileArguments :=
  { size := 256, x := 0, y := 0, zoom := 0,
    color := ColorKind.UniversalBlue, smooth := true, snow := true }

/-- A sample `RequestArguments` wrapping `sampleTile`. -/
def sampleArgs : RequestArguments :=
  { inner := RequestArgumentsInner.Tile sampleTile }

theorem pow_le_u32 {zoom : Nat} (hz : zoom ≤ 31) : 2 ^ zoom < 2 ^ 32 :=
  lt_of_le_of_lt (Nat.pow_le_pow_right (by norm_num) hz) (by norm_num)

/-- C1 (amended): for every `zoom ≤ 31` (so that `2^zoom` fits in a `u32`),
`x < 2^zoom` and `y < 2^zoom`, `new_tile x y zoom` succeeds and returns the
given coordinates with the defaults `size = 256`, `color = UniversalBlue`,
`smooth = true`, `snow = true`. -/
theorem C1_new_tile_defaults (x y zoom : Nat) (hz : zoom ≤ 31)
    (hx : x < 2 ^ zoom) (hy : y < 2 ^ zoom) :
    new_tile x y zoom = some (Except.ok
      { inner := RequestArgumentsInner.Tile
          { size := 256, x := x, y := y, zoom := zoom,
            color := ColorKind.UniversalBlue, smooth := true, snow := true } }) := by
  have hp : pow2u32 zoom = some (2 ^ zoom) := if_pos (pow_le_u32 hz)
  simp [new_tile, hp, Nat.not_le.mpr hx, Nat.not_le.mpr hy]

/-- C1 (counterexample to the claim as stated): at `x = 0`, `y = 0`,
`zoom = 32` the claim's hypotheses hold (`0 < 2^32`), yet `new_tile`
does not succeed: `2u32.pow(32)` overflows, modelled as `none`. -/
theorem C1_counterexample :
    0 < 2 ^ (32 : Nat) ∧ new_tile 0 0 32 = none := by
  constructor
  · norm_num
  · rfl

/-- C1 witness: the theorem applied at `x = 1`, `y = 2`, `zoom = 3`. -/
theorem C1_witness :
    new_tile 1 2 3 = some (Except.ok
      { inner := RequestArgumentsInner.Tile
          { size := 256, x := 1, y := 2, zoom := 3,
            color := ColorKind.UniversalBlue, smooth := true, snow := true } }) :=
  C1_new_tile_defaults 1 2 3 (by norm_num) (by norm_num) (by norm_num)

/-- C3: for `u32` inputs, if `x ≥ 2^zoom` then `new_tile` fails with
`XOutOfRange` carrying `x` (x is checked first, regardless of `y`); else if
`y ≥ 2^zoom` it fails with `YOutOfRange` carrying `y`. -/
theorem C3_out_of_range (x y zoom : Nat) (hx32 : x < 2 ^ 32)
    (hy32 : y < 2 ^ 32) :
    (2 ^ zoom ≤ x → ∃ msg, new_tile x y zoom =
        some (Except.error (ParameterError.XOutOfRange x msg)))
    ∧ (x < 2 ^ zoom → 2 ^ zoom ≤ y → ∃ msg, new_tile x y zoom =
        some (Except.error (ParameterError.YOutOfRange y msg))) := by
  constructor
  · intro hx
    have hp : pow2u32 zoom = some (2 ^ zoom) := if_pos (lt_of_le_of_lt hx hx32)
    exact ⟨"With a zoom of " ++ toString zoom ++ ", the max value for x is "
      ++ toString (2 ^ zoom - 1), by simp [new_tile, hp, hx]⟩
  · intro hx hy
    have hp : pow2u32 zoom = some (2 ^ zoom) := if_pos (lt_of_le_of_lt hy hy32)
    exact ⟨"With a zoom of " ++ toString zoom ++ ", the max value for y is "
      ++ toString (2 ^ zoom - 1), by simp [new_tile, hp, hy, Nat.not_le.mpr hx]⟩

/-- C3 witness: the theorem at `(5, 0, 2)` for the x branch and `(0, 5, 2)`
for the y branch. -/
theorem C3_witness :
    (∃ msg, new_tile 5 0 2 =
      some (Except.error (ParameterError.XOutOfRange 5 msg)))
    ∧ (∃ msg, new_tile 0 5 2 =
      some (Except.error (ParameterError.YOutOfRange 5 msg))) :=
  ⟨(C3_out_of_range 5 0 2 (by norm_num) (by norm_num)).1 (by norm_num),
   (C3_out_of_range 0 5 2 (by norm_num) (by norm_num)).2 (by norm_num) (by norm_num)⟩

/-- C8: `new_tile 40 1 2` fails (with some error), and `new_tile 0 4 2`
fails with `YOutOfRange` carrying 4 (since `2^2 = 4`). -/
theorem C8_examples :
    (∃ e, new_tile 40 1 2 = some (Except.error e))
    ∧ (∃ msg, new_tile 0 4 2 =
      some (Except.error (ParameterError.YOutOfRange 4 msg))) :=
  ⟨⟨_, rfl⟩, ⟨_, rfl⟩⟩

/-- C10: for `zoom ≤ 31`, `new_tile` terminates without panic (the model
never returns `none`), and whenever the power succeeds its value is at
least 1, so `max_coord - 1` cannot underflow; the guarantee does not
extend to `zoom = 32`, where `2u32.pow(zoom)` overflows (`none`). -/
theorem C10_no_panic (x y zoom : Nat) (hz : zoom ≤ 31) :
    (new_tile x y zoom).isSome = true
    ∧ (∀ m, pow2u32 zoom = some m → 1 ≤ m)
    ∧ new_tile 0 0 32 = none := by
  refine ⟨?_, ?_, rfl⟩
  · simp only [new_tile, pow2u32, if_pos (pow_le_u32 hz)]
    split
    · rfl
    · split <;> rfl
  · intro m hm
    simp only [pow2u32, if_pos (pow_le_u32 hz), Option.some.injEq] at hm
    exact hm ▸ Nat.one_le_two_pow

/-- C10 witness: the theorem at `x = 3`, `y = 5`, `zoom = 7`. -/
theorem C10_witness :
    (new_tile 3 5 7).isSome = true ∧ new_tile 0 0 32 = none :=
  ⟨(C10_no_panic 3 5 7 (by norm_num)).1, (C10_no_panic 3 5 7 (by norm_num)).2.2⟩

theorem colorCode_lt (c : ColorKind) : colorCode c < 9 := by cases c <;> decide

/-- C4: the color-code mapping takes the 9 variants to 0..8 in the fixed
order and is a bijection onto `Fin 9`. -/
theorem C4_color_bijection :
    (colorCode ColorKind.BlackAndWhite = 0 ∧ colorCode ColorKind.Original = 1
      ∧ colorCode ColorKind.UniversalBlue = 2 ∧ colorCode ColorKind.Titan = 3
      ∧ colorCode ColorKind.TheWeatherChannel = 4
      ∧ colorCode ColorKind.Meteored = 5
      ∧ colorCode ColorKind.NexradLevelIII = 6
      ∧ colorCode ColorKind.RainbowSelexIS = 7
      ∧ colorCode ColorKind.DarkSky = 8)
    ∧ Function.Bijective
        (fun c : ColorKind => (⟨colorCode c, colorCode_lt c⟩ : Fin 9)) := by
  refine ⟨by decide, ?_⟩
  decide

/-- C5: `set_size` succeeds exactly on 256 and 512; on success the size
field becomes the given size and repeating the call is idempotent; on
failure the arguments are unchanged and the error is `InvalidSize` carrying
the offending size. -/
theorem C5_set_size (self : RequestArguments) (size : Nat) :
    ((set_size self size).2 = none ↔ size = 256 ∨ size = 512)
    ∧ (size = 256 ∨ size = 512 →
        (set_size self size).1.tile.size = size
        ∧ set_size (set_size self size).1 size = set_size self size)
    ∧ (¬(size = 256 ∨ size = 512) →
        (set_size self size).1 = self
        ∧ ∃ msg, (set_size self size).2 =
            some (ParameterError.InvalidSize size msg)) := by
  obtain ⟨t⟩ := self
  obtain ⟨inner⟩ := t
  by_cases h : size = 256 ∨ size = 512 <;>
    simp [set_size, h, RequestArguments.tile]

/-- C5 witness: the theorem at the sample arguments with sizes 512 and 100. -/
theorem C5_witness :
    (set_size sampleArgs 512).2 = none
    ∧ (set_size sampleArgs 100).1 = sampleArgs :=
  ⟨(C5_set_size sampleArgs 512).1.mpr (Or.inr rfl),
   ((C5_set_size sampleArgs 100).2.2 (by decide)).1⟩

/-- C9: `set_smooth`, `set_snow` and `set_color` are total (they return
plain `RequestArguments`, no error), each sets exactly its own field and
leaves `x`, `y`, `zoom`, `size` and the remaining fields unchanged. -/
theorem C9_setters_frame (self : RequestArguments) (b : Bool) (c : ColorKind) :
    ((set_smooth self b).tile.smooth = b
      ∧ (set_smooth self b).tile.x = self.tile.x
      ∧ (set_smooth self b).tile.y = self.tile.y
      ∧ (set_smooth self b).tile.zoom = self.tile.zoom
      ∧ (set_smooth self b).tile.size = self.tile.size
      ∧ (set_smooth self b).tile.color = self.tile.color
      ∧ (set_smooth self b).tile.snow = self.tile.snow)
    ∧ ((set_snow self b).tile.snow = b
      ∧ (set_snow self b).tile.x = self.tile.x
      ∧ (set_snow self b).tile.y = self.tile.y
      ∧ (set_snow self b).tile.zoom = self.tile.zoom
      ∧ (set_snow self b).tile.size = self.tile.size
      ∧ (set_snow self b).tile.color = self.tile.color
      ∧ (set_snow self b).tile.smooth = self.tile.smooth)
    ∧ ((set_color self c).tile.color = c
      ∧ (set_color self c).tile.x = self.tile.x
      ∧ (set_color self c).tile.y = self.tile.y
      ∧ (set_color self c).tile.zoom = self.tile.zoom
      ∧ (set_color self c).tile.size = self.tile.size
      ∧ (set_color self c).tile.smooth = self.tile.smooth
      ∧ (set_color self c).tile.snow = self.tile.snow) := by
  obtain ⟨t⟩ := self
  obtain ⟨inner⟩ := t
  simp [set_smooth, set_snow, set_color, RequestArguments.tile]

/-- C2: the URL `get_tile` builds is exactly the spec's template
host/path/size/zoom/x/y/colorCode/optionsToken.png with the options token
smooth and snow serialized as 0/1 joined by an underscore, and `get_tile`
consults the transport at exactly that URL. -/
theorem C2_url (send : String → Except String HttpResponse)
    (maps : AvailableData) (frame : Frame) (a : TileArguments) :
    tile_url maps.host frame.path a =
      spec_tile_url maps.host frame.path a.size a.zoom a.x a.y a.color
        a.smooth a.snow
    ∧ get_tile send maps frame { inner := RequestArgumentsInner.Tile a } =
        (match send (spec_tile_url maps.host frame.path a.size a.zoom a.x a.y
            a.color a.smooth a.snow) with
         | Except.error e => Except.error (Error.Reqwest e)
         | Except.ok res =>
           if res.status = 200 then Except.ok res.body
           else Except.error (Error.Http res.status)) := by
  have hopt : ∀ b : Bool,
      toString (if b then (1 : Nat) else 0) = (if b then "1" else "0") := by
    intro b; cases b <;> rfl
  have hurl : tile_url maps.host frame.path a =
      spec_tile_url maps.host frame.path a.size a.zoom a.x a.y a.color
        a.smooth a.snow := by
    simp only [tile_url, spec_tile_url, hopt]
  refine ⟨hurl, ?_⟩
  dsimp only [get_tile]
  rw [hurl]

/-- C6: when the transport returns a response for the tile URL, a 200
status yields the body bytes verbatim and any other status yields
`Error.Http` carrying exactly that status. -/
theorem C6_http_status (send : String → Except String HttpResponse)
    (maps : AvailableData) (frame : Frame) (a : TileArguments)
    (res : HttpResponse)
    (hsend : send (tile_url maps.host frame.path a) = Except.ok res) :
    (res.status = 200 →
      get_tile send maps frame { inner := RequestArgumentsInner.Tile a } =
        Except.ok res.body)
    ∧ (res.status ≠ 200 →
      get_tile send maps frame { inner := RequestArgumentsInner.Tile a } =
        Except.error (Error.Http res.status)) := by
  constructor <;> intro h <;> simp [get_tile, hsend, h]

/-- C6 witness: a transport answering 200 with four bytes, and one
answering 404. -/
theorem C6_witness :
    get_tile (fun _ => Except.ok { status := 200, body := [137, 80, 78, 71] })
      { host := "h", past_radar := [], nowcast_radar := [],
        infrared_satellite := [] }
      { time := 0, path := "p" } sampleArgs = Except.ok [137, 80, 78, 71]
    ∧ get_tile (fun _ => Except.ok { status := 404, body := [] })
      { host := "h", past_radar := [], nowcast_radar := [],
        infrared_satellite := [] }
      { time := 0, path := "p" } sampleArgs = Except.error (Error.Http 404) :=
  ⟨(C6_http_status (fun _ => Except.ok { status := 200, body := [137, 80, 78, 71] })
      { host := "h", past_radar := [], nowcast_radar := [],
        infrared_satellite := [] }
      { time := 0, path := "p" } sampleTile
      { status := 200, body := [137, 80, 78, 71] } rfl).1 rfl,
   (C6_http_status (fun _ => Except.ok { status := 404, body := [] })
      { host := "h", past_radar := [], nowcast_radar := [],
        infrared_satellite := [] }
      { time := 0, path := "p" } sampleTile
      { status := 404, body := [] } rfl).2 (by decide)⟩

theorem frames_path_at (l : List RawFrame) (i : Nat) :
    ((l.map frameOfRaw)[i]?).map Frame.path = (l[i]?).map RawFrame.path := by
  cases h : l[i]? <;> simp [List.getElem?_map, h, frameOfRaw]

theorem frames_time_at (l : List RawFrame) (i : Nat) :
    ((l.map frameOfRaw)[i]?).map Frame.time
      = (l[i]?).map (fun r : RawFrame => timestampFromUnix r.time) := by
  cases h : l[i]? <;> simp [List.getElem?_map, h, frameOfRaw]

/-- C7: the flattened structure keeps the raw host, maps the three raw
frame lists elementwise in order through the timestamp conversion with each
path preserved, and ignores `version` and `generated`. -/
theorem C7_available_projection (raw : RawAvailableData) :
    (availableOfRaw raw).host = raw.host
    ∧ (∀ i : Nat, ((availableOfRaw raw).past_radar[i]?).map Frame.path
        = (raw.radar.past[i]?).map RawFrame.path)
    ∧ (∀ i : Nat, ((availableOfRaw raw).past_radar[i]?).map Frame.time
        = (raw.radar.past[i]?).map (fun r : RawFrame => timestampFromUnix r.time))
    ∧ (∀ i : Nat, ((availableOfRaw raw).nowcast_radar[i]?).map Frame.path
        = (raw.radar.nowcast[i]?).map RawFrame.path)
    ∧ (∀ i : Nat, ((availableOfRaw raw).nowcast_radar[i]?).map Frame.time
        = (raw.radar.nowcast[i]?).map (fun r : RawFrame => timestampFromUnix r.time))
    ∧ (∀ i : Nat, ((availableOfRaw raw).infrared_satellite[i]?).map Frame.path
        = (raw.satellite.infrared[i]?).map RawFrame.path)
    ∧ (∀ i : Nat, ((availableOfRaw raw).infrared_satellite[i]?).map Frame.time
        = (raw.satellite.infrared[i]?).map (fun r : RawFrame => timestampFromUnix r.time))
    ∧ (∀ v g, availableOfRaw
        { raw with version := v, generated := g } = availableOfRaw raw) :=
  ⟨rfl,
   fun i => frames_path_at raw.radar.past i,
   fun i => frames_time_at raw.radar.past i,
   fun i => frames_path_at raw.radar.nowcast i,
   fun i => frames_time_at raw.radar.nowcast i,
   fun i => frames_path_at raw.satellite.infrared i,
   fun i => frames_time_at raw.satellite.infrared i,
   fun _ _ => rfl⟩

end RainViewer
